import Mathlib

/-!
Verification of the FurCraft image-hosting service's cache layer and
sliding-window rate limiter (`src/api.js`, `src/cache-manager.js`,
`src/simple-cache-manager.js`, `src/cache/RedisCache.js`).

JavaScript `Map`s are embedded as insertion-ordered association lists with
string keys; `Date.now()` instants and millisecond durations are embedded
as `Int`; JavaScript numbers reaching the `-Infinity` edge case are
embedded as `JSNum`.
-/

namespace FurImg

/-- Insertion-ordered association list, modelling a JavaScript `Map`
with string keys. -/
abbrev JMap (α : Type) := List (String × α)

/-- `Map.get`: value of the first (and, with unique keys, only) entry. -/
def mapGet {α : Type} : JMap α → String → Option α
  | [], _ => none
  | (k', v) :: rest, k => if k' = k then some v else mapGet rest k

/-- `Map.set`: update in place when the key is present (JS keeps the
entry's insertion position), otherwise append at the end. -/
def mapSet {α : Type} : JMap α → String → α → JMap α
  | [], k, v => [(k, v)]
  | (k', v') :: rest, k, v =>
      if k' = k then (k, v) :: rest else (k', v') :: mapSet rest k v

/-- `Map.delete`: remove the entry with the given key. -/
def mapDelete {α : Type} : JMap α → String → JMap α
  | [], _ => []
  | (k', v') :: rest, k =>
      if k' = k then mapDelete rest k else (k', v') :: mapDelete rest k

theorem mapGet_mapSet_self {α : Type} (m : JMap α) (k : String) (v : α) :
    mapGet (mapSet m k v) k = some v := by
  induction m with
  | nil => simp [mapGet, mapSet]
  | cons p rest ih =>
      obtain ⟨k', v'⟩ := p
      by_cases h : k' = k <;> simp [mapGet, mapSet, h, ih]

theorem mapGet_mapDelete_self {α : Type} (m : JMap α) (k : String) :
    mapGet (mapDelete m k) k = none := by
  induction m with
  | nil => simp [mapGet, mapDelete]
  | cons p rest ih =>
      obtain ⟨k', v'⟩ := p
      by_cases h : k' = k <;> simp [mapGet, mapDelete, h, ih]

/-- JavaScript number restricted to the values arising in the rate
limiter's `reset` computation: finite integers and `-Infinity`
(the value of `Math.max()` on an empty argument list). -/
inductive JSNum where
  | fin (n : Int)
  | negInf
deriving DecidableEq, Repr

/-- `Math.max(...l)`: `-Infinity` on an empty spread. -/
def jsMax (l : List Int) : JSNum :=
  match l with
  | [] => .negInf
  | x :: xs => .fin (xs.foldl max x)

/-- Adding a finite number to a possibly `-Infinity` value. -/
def jsAddInt : JSNum → Int → JSNum
  | .fin a, b => .fin (a + b)
  | .negInf, _ => .negInf

/-- `Math.ceil(a / 1000)` on integers: `⌈a/1000⌉ = -⌊-a/1000⌋`. -/
def ceilDiv1000 (a : Int) : Int := -((-a).ediv 1000)

/-- `Math.ceil(x / 1000)` propagating `-Infinity`. -/
def jsCeilDiv1000 : JSNum → JSNum
  | .fin a => .fin (ceilDiv1000 a)
  | .negInf => .negInf

/-- A `JSNum` is finite when it is not an infinity. -/
def JSNum.isFinite : JSNum → Bool
  | .fin _ => true
  | .negInf => false

/-! ## Rate limiter (`requestLimiter` in `src/api.js`) -/

/-- A ban record (`banList` entry): `{startTime, endTime, reason}`. -/
structure BanInfo where
  startTime : Int
  endTime : Int
  reason : String
deriving DecidableEq, Repr

/-- The limiter's configuration fields (set by `initialize`). -/
structure RLConfig where
  windowSize : Int
  limit : Nat
  maxClients : Nat
  enabled : Bool
  banDuration : Int
deriving DecidableEq, Repr

/-- The limiter's mutable state: `windows` (per-client request
timestamps) and `banList`. -/
structure RLState where
  windows : JMap (List Int)
  banList : JMap BanInfo
deriving DecidableEq, Repr

/-- `requestLimiter.isBanned(clientIP)` (src/api.js:65-79): lazily expires
a ban at `now ≥ endTime`, also clearing the client's request window. -/
def isBanned (s : RLState) (c : String) (now : Int) : Bool × RLState :=
  match mapGet s.banList c with
  | none => (false, s)
  | some b =>
      if b.endTime ≤ now then
        (false, { banList := mapDelete s.banList c,
                  windows := mapDelete s.windows c })
      else
        (true, s)

/-- Result of `getBanStatus`: `{remainingTime, reason}` (the ISO end-time
string is presentation only and omitted). -/
structure BanStatus where
  remainingTime : Int
  reason : String
deriving DecidableEq, Repr

/-- `requestLimiter.getBanStatus(clientIP)` (src/api.js:81-97). -/
def getBanStatus (s : RLState) (c : String) (now : Int) :
    Option BanStatus × RLState :=
  match mapGet s.banList c with
  | none => (none, s)
  | some b =>
      if b.endTime ≤ now then
        (none, { banList := mapDelete s.banList c,
                 windows := mapDelete s.windows c })
      else
        (some ⟨ceilDiv1000 (b.endTime - now), b.reason⟩, s)

/-- `requestLimiter.banClient(clientIP)` (src/api.js:99-113) with the
default reason: a client already in `banList` is left untouched. -/
def banClient (cfg : RLConfig) (s : RLState) (c : String) (now : Int) :
    RLState :=
  match mapGet s.banList c with
  | some _ => s
  | none =>
      { s with banList :=
          mapSet s.banList c ⟨now, now + cfg.banDuration, "Rate limit exceeded"⟩ }

/-- Largest element of a request window (windows handed to the sort in
`cleanup` are non-empty; `0` is a junk default for the empty case). -/
def listMaxInt (l : List Int) : Int :=
  match l with
  | [] => 0
  | x :: xs => xs.foldl max x

/-- `requestLimiter.cleanup()` (src/api.js:159-198): evict stale
timestamps, drop empty windows, drop expired bans together with their
windows, then LRU-evict (stable sort by most recent timestamp) down to
`maxClients`. -/
def cleanup (cfg : RLConfig) (s : RLState) (now : Int) : RLState :=
  let windowStart := now - cfg.windowSize
  let ws1 := (s.windows.map
      (fun p => (p.1, p.2.filter (fun t => windowStart < t)))).filter
      (fun p => ¬ p.2.isEmpty)
  let expired := s.banList.filter (fun p => p.2.endTime ≤ now)
  let bl := s.banList.filter (fun p => now < p.2.endTime)
  let ws2 := ws1.filter (fun p => ¬ expired.any (fun q => q.1 = p.1))
  let ws3 :=
    if cfg.maxClients < ws2.length then
      let sorted := ws2.mergeSort
        (fun a b => decide (listMaxInt a.2 ≤ listMaxInt b.2))
      let toDelete := sorted.take (sorted.length - cfg.maxClients)
      ws2.filter (fun p => ¬ toDelete.any (fun q => q.1 = p.1))
    else ws2
  { windows := ws3, banList := bl }

/-- `requestLimiter.isAllowed(clientIP)` (src/api.js:115-157). -/
def isAllowed (cfg : RLConfig) (s : RLState) (c : String) (now : Int) :
    Bool × RLState :=
  let r := isBanned s c now
  if r.1 then (false, r.2)
  else if cfg.enabled = false then (true, r.2)
  else
    let s2 := if cfg.maxClients < r.2.windows.length
              then cleanup cfg r.2 now else r.2
    let isNew := (mapGet s2.windows c).isNone
    if isNew ∧ cfg.maxClients ≤ s2.windows.length then (false, s2)
    else
      let requests := ((mapGet s2.windows c).getD []).filter
        (fun t => now - cfg.windowSize < t)
      if cfg.limit ≤ requests.length then
        (false, banClient cfg { s2 with windows := mapDelete s2.windows c } c now)
      else
        (true, { s2 with windows := mapSet s2.windows c (requests ++ [now]) })

/-- The non-banned branch of `getStatus`'s return value
(src/api.js:217-224); `remaining` embeds `Math.max(0, limit - n)` via
truncated `Nat` subtraction and `reset` keeps the raw `JSNum`. -/
structure RLStatus where
  banned : Bool
  requests : Nat
  window : Int
  limit : Nat
  remaining : Nat
  reset : JSNum
deriving DecidableEq, Repr

/-- The two non-null shapes `getStatus` can return. -/
inductive StatusResult where
  | bannedStatus (b : BanStatus)
  | activeStatus (r : RLStatus)
deriving DecidableEq, Repr

/-- `requestLimiter.getStatus(clientIP)` (src/api.js:200-225); `none`
models the JS `null` return. -/
def getStatus (cfg : RLConfig) (s : RLState) (c : String) (now : Int) :
    Option StatusResult × RLState :=
  let bs := getBanStatus s c now
  match bs.1 with
  | some b => (some (.bannedStatus b), bs.2)
  | none =>
      match mapGet bs.2.windows c with
      | none => (none, bs.2)
      | some reqs =>
          let active := reqs.filter (fun t => now - cfg.windowSize < t)
          (some (.activeStatus
            { banned := false
              requests := active.length
              window := cfg.windowSize
              limit := cfg.limit
              remaining := cfg.limit - active.length
              reset := jsCeilDiv1000
                (jsAddInt (jsMax active) (cfg.windowSize - now)) }), bs.2)

/-- The JS `TypeError` raised when `handleApiRequest` reads `.banned`
from a `null` status (src/api.js:426-440). -/
def nullBannedError : String :=
  "TypeError: Cannot read properties of null (reading banned)"

/-- Outcome of the rate-limiting prefix of `handleApiRequest`. -/
inductive ApiOutcome where
  | proceed
  | reject (code : Nat) (st : StatusResult)
deriving DecidableEq, Repr

/-- Whether a status renders as banned (`status.banned`). -/
def statusIsBanned : StatusResult → Bool
  | .bannedStatus _ => true
  | .activeStatus r => r.banned

/-- The rate-limiting prefix of `handleApiRequest` (src/api.js:424-441):
on rejection it fetches `getStatus` and reads `.banned` from it, which
throws a `TypeError` when the status is `null`. -/
def handleApiRequest (cfg : RLConfig) (s : RLState) (c : String)
    (now : Int) : Except String ApiOutcome × RLState :=
  let r := isAllowed cfg s c now
  if r.1 then (.ok .proceed, r.2)
  else
    let st := getStatus cfg r.2 c now
    match st.1 with
    | none => (.error nullBannedError, st.2)
    | some res =>
        (.ok (.reject (if statusIsBanned res then 403 else 429) res), st.2)

/-! ## Cache coordinator (`CacheManager` in `src/cache-manager.js`) -/

/-- `0 || b` and `null || b` are `b` in JS; any other number is itself.
Embeds the `x || default` idiom on a possibly-absent numeric `x`. -/
def orElseNum (a : Option Int) (b : Int) : Int :=
  match a with
  | none => b
  | some x => if x = 0 then b else x

/-- Configuration consumed by the coordinator: `cache.enabled`,
`cache.ttl`, `cache.redis_ttl` (0 models an absent/falsy value), and the
`redis.reconnect` retry bounds. -/
structure CMConfig where
  cacheEnabled : Bool
  ttl : Int
  redisTtl : Int
  maxRetries : Nat
deriving DecidableEq, Repr

/-- The coordinator's state: the local Map cache with its TTL and
access-count side tables, plus the remote-connection bookkeeping
(`retryTimeout` is whether a one-shot reconnect timer is pending). -/
structure CMState (V : Type) where
  mapCache : JMap V
  mapCacheTTL : JMap Int
  accessCount : JMap Nat
  isRedisConnected : Bool
  retryCount : Nat
  retryTimeout : Bool
  isReconnecting : Bool
deriving DecidableEq, Repr

/-- `CacheManager.scheduleReconnect()` (src/cache-manager.js:135-155):
no-op once reconnecting or out of retries, otherwise bump `retryCount`
and arm the one-shot timer. -/
def scheduleReconnect {V : Type} (cfg : CMConfig) (s : CMState V) :
    CMState V :=
  if s.isReconnecting = true ∨ cfg.maxRetries ≤ s.retryCount then s
  else { s with retryCount := s.retryCount + 1, retryTimeout := true }

/-- `CacheManager.handleRedisError()` (src/cache-manager.js:118-133):
mark disconnected, drop the client, schedule a reconnect. -/
def handleRedisError {V : Type} (cfg : CMConfig) (s : CMState V) :
    CMState V :=
  scheduleReconnect cfg { s with isRedisConnected := false }

/-- Outcome of the attempted Redis `get`, supplied as an oracle: the
remote either answers (possibly with no value) or throws. -/
inductive RemoteGet (V : Type) where
  | ok (v : Option V)
  | err
deriving DecidableEq, Repr

/-- The Map-cache branch of `CacheManager.get`
(src/cache-manager.js:213-229): serve unexpired entries (bumping the
access count), lazily delete expired ones. `expireTime = 0` is falsy in
JS, hence also served. -/
def mapGetPath {V : Type} (s : CMState V) (k : String) (now : Int) :
    Option V × CMState V :=
  let bumped := mapSet s.accessCount k ((mapGet s.accessCount k).getD 0 + 1)
  match mapGet s.mapCache k with
  | none => (none, s)
  | some v =>
      match mapGet s.mapCacheTTL k with
      | none =>
          (some v, { s with accessCount := bumped })
      | some e =>
          if e = 0 ∨ now < e then
            (some v, { s with accessCount := bumped })
          else
            (none, { s with
              mapCache := mapDelete s.mapCache k
              mapCacheTTL := mapDelete s.mapCacheTTL k
              accessCount := mapDelete s.accessCount k })

/-- `CacheManager.get(key)` (src/cache-manager.js:195-230): try Redis
when connected and not reconnecting; a throwing call runs
`handleRedisError` and falls through to the Map cache, as does a remote
`null`. -/
def cmGet {V : Type} (cfg : CMConfig) (s : CMState V) (k : String)
    (remote : RemoteGet V) (now : Int) : Option V × CMState V :=
  if cfg.cacheEnabled = false then (none, s)
  else if s.isRedisConnected = true ∧ s.isReconnecting = false then
    match remote with
    | .ok (some v) => (some v, s)
    | .ok none => mapGetPath s k now
    | .err => mapGetPath (handleRedisError cfg s) k now
  else
    mapGetPath s k now

/-- A `setEx` command issued to the remote backend: key and TTL
(seconds). -/
structure RemoteSetCmd where
  key : String
  ttlSeconds : Int
deriving DecidableEq, Repr

/-- The Map-cache branch of `CacheManager.set`
(src/cache-manager.js:255-258). -/
def mapSetPath {V : Type} (s : CMState V) (k : String) (v : V)
    (cacheTTL : Int) (now : Int) : CMState V :=
  { s with
    mapCache := mapSet s.mapCache k v
    mapCacheTTL := mapSet s.mapCacheTTL k (now + cacheTTL * 1000)
    accessCount := mapSet s.accessCount k 0 }

/-- `CacheManager.set(key, value, ttl)` (src/cache-manager.js:232-259):
`ttl || cache.ttl` resolves the local TTL, `ttl || redis_ttl || ttl`
the remote one; a non-positive resolved TTL returns with no effect at
all. `remoteOk` is the oracle for whether `setEx` succeeds; the returned
`Option RemoteSetCmd` records a successful remote write. -/
def cmSet {V : Type} (cfg : CMConfig) (s : CMState V) (k : String)
    (v : V) (ttl : Option Int) (remoteOk : Bool) (now : Int) :
    CMState V × Option RemoteSetCmd :=
  if cfg.cacheEnabled = false then (s, none)
  else
    let cacheTTL := orElseNum ttl cfg.ttl
    let redisTTL := orElseNum ttl (orElseNum (some cfg.redisTtl) cfg.ttl)
    if cacheTTL ≤ 0 then (s, none)
    else if s.isRedisConnected = true ∧ s.isReconnecting = false then
      if remoteOk then (s, some ⟨k, redisTTL⟩)
      else (mapSetPath (handleRedisError cfg s) k v cacheTTL now, none)
    else
      (mapSetPath s k v cacheTTL now, none)

/-! ## Secondary-worker cache (`SimpleCacheManager` in
`src/simple-cache-manager.js`) -/

/-- The simple manager's state: local Map cache and TTL table only. -/
structure SCMState (V : Type) where
  mapCache : JMap V
  mapCacheTTL : JMap Int
deriving DecidableEq, Repr

/-- `SimpleCacheManager.set(key, value, ttl)`
(src/simple-cache-manager.js:73-87): `ttl || cache.ttl`, return without
effect when the resolved TTL is non-positive, else store the value with
expiry `now + ttl*1000`. -/
def scmSet {V : Type} (enabled : Bool) (cfgTtl : Int) (s : SCMState V)
    (k : String) (v : V) (ttl : Option Int) (now : Int) : SCMState V :=
  if enabled = false then s
  else
    let cacheTTL := orElseNum ttl cfgTtl
    if cacheTTL ≤ 0 then s
    else
      { mapCache := mapSet s.mapCache k v
        mapCacheTTL := mapSet s.mapCacheTTL k (now + cacheTTL * 1000) }

/-! ## Remote cache client (`RedisCache` in `src/cache/RedisCache.js`) -/

/-- Retry bounds of the remote client (`redis.reconnect`). -/
structure RCConfig where
  maxRetries : Nat
  retryInterval : ℚ
deriving DecidableEq, Repr

/-- Reconnection bookkeeping of the remote client: the retry counter
and the pending one-shot timer's delay, if armed. -/
structure RCState where
  retryCount : Nat
  reconnectTimeout : Option ℚ
deriving DecidableEq, Repr

/-- `RedisCache.handleReconnect()` (src/cache/RedisCache.js): stop once
`retryCount ≥ maxRetries`; otherwise increment the counter and arm a
timer with delay `retryInterval * 1.5^(retryCount - 1)` computed after
the increment. -/
def handleReconnect (cfg : RCConfig) (s : RCState) : RCState :=
  if cfg.maxRetries ≤ s.retryCount then s
  else
    { retryCount := s.retryCount + 1
      reconnectTimeout :=
        some (cfg.retryInterval * (3 / 2 : ℚ) ^ s.retryCount) }

/-- The synchronous part of `RedisCache.manualReconnect()`: cancel any
pending timer and reset `retryCount` to 0 (before calling
`connect()`). -/
def manualReconnectReset (_s : RCState) : RCState :=
  { retryCount := 0, reconnectTimeout := none }

/-! ## Theorems -/

/-- C1: for a tracked, unbanned client with `n` timestamps remaining in
its window after evicting those older than `now - windowSize`,
`isAllowed` appends `now` and returns `true` iff `n < limit`; on the
request where `n ≥ limit` it deletes the client's window entirely,
creates a ban record with `endTime = now + banDuration`, and returns
`false`. -/
theorem C1_admits_exactly_limit (cfg : RLConfig) (s : RLState)
    (c : String) (now : Int) (w : List Int)
    (henabled : cfg.enabled = true)
    (hban : mapGet s.banList c = none)
    (hw : mapGet s.windows c = some w)
    (hsize : s.windows.length ≤ cfg.maxClients) :
    ((isAllowed cfg s c now).1 = true ↔
       (w.filter (fun t => now - cfg.windowSize < t)).length < cfg.limit) ∧
    ((w.filter (fun t => now - cfg.windowSize < t)).length < cfg.limit →
       (isAllowed cfg s c now).2.windows
         = mapSet s.windows c
             (w.filter (fun t => now - cfg.windowSize < t) ++ [now]) ∧
       (isAllowed cfg s c now).2.banList = s.banList) ∧
    (cfg.limit ≤ (w.filter (fun t => now - cfg.windowSize < t)).length →
       (isAllowed cfg s c now).1 = false ∧
       mapGet (isAllowed cfg s c now).2.windows c = none ∧
       mapGet (isAllowed cfg s c now).2.banList c
         = some ⟨now, now + cfg.banDuration, "Rate limit exceeded"⟩) := by
  have hnotlt : ¬ cfg.maxClients < s.windows.length := not_lt.mpr hsize
  by_cases hlim : cfg.limit ≤ (w.filter (fun t => now - cfg.windowSize < t)).length
  · simp [isAllowed, isBanned, hban, henabled, hnotlt, hw, hlim,
      not_lt.mpr hlim, banClient, mapGet_mapDelete_self, mapGet_mapSet_self]
  · simp [isAllowed, isBanned, hban, henabled, hnotlt, hw, hlim,
      lt_of_not_le hlim]

/-- C1 witness: with `limit = 2`, a client holding 2 in-window
timestamps is rejected and banned with `endTime = now + banDuration`. -/
theorem C1_admits_exactly_limit_witness :
    (isAllowed ⟨60000, 2, 100, true, 10000⟩ ⟨[("c", [10, 20])], []⟩ "c" 30).1
        = false ∧
    mapGet (isAllowed ⟨60000, 2, 100, true, 10000⟩
        ⟨[("c", [10, 20])], []⟩ "c" 30).2.banList "c"
      = some ⟨30, 10030, "Rate limit exceeded"⟩ := by
  have h := (C1_admits_exactly_limit ⟨60000, 2, 100, true, 10000⟩
      ⟨[("c", [10, 20])], []⟩ "c" 30 [10, 20] rfl rfl rfl
      (by decide)).2.2 (by decide)
  exact ⟨h.1, h.2.2⟩

/-- Configuration used in the C2 counterexample: `limit = 1`,
`maxClients = 1`. -/
def c2Cfg : RLConfig := ⟨60000, 1, 1, true, 10000⟩

/-- State reached from the empty limiter under `c2Cfg` by: client `c`
admitted at 0, `c` banned on its second request at 1 (`endTime =
10001`), client `d` admitted at 2 (filling the table). -/
def c2State : RLState :=
  (isAllowed c2Cfg
    (isAllowed c2Cfg (isAllowed c2Cfg ⟨[], []⟩ "c" 0).2 "c" 1).2
    "d" 2).2

/-- C2 counterexample: in the reachable state `c2State`, client `c` is
banned with `endTime = 10001`, yet its first request at `now = 10001 ≥
endTime` is rejected — the table is still at `maxClients`, so no window
is created and the counted-request total is not 1, refuting the claim's
unconditional "that request is admitted". -/
theorem C2_ban_fairness_counterexample :
    mapGet c2State.banList "c"
        = some ⟨1, 10001, "Rate limit exceeded"⟩ ∧
    (isAllowed c2Cfg c2State "c" 10001).1 = false ∧
    mapGet (isAllowed c2Cfg c2State "c" 10001).2.windows "c" = none := by
  decide

/-- C2 (amended): a banned client is rejected while `now < endTime`;
the first request at `now ≥ endTime` deletes both the ban record and
the client's window before evaluation, and — provided the limit is
positive and the remaining tracked-client count is below `maxClients` —
that request is admitted and the client's new window holds exactly the
one timestamp `now`. -/
theorem C2_ban_fairness (cfg : RLConfig) (s : RLState) (c : String)
    (now : Int) (b : BanInfo)
    (henabled : cfg.enabled = true)
    (hb : mapGet s.banList c = some b)
    (hlim : 0 < cfg.limit) :
    (now < b.endTime → isAllowed cfg s c now = (false, s)) ∧
    (b.endTime ≤ now →
       (mapDelete s.windows c).length < cfg.maxClients →
       (isAllowed cfg s c now).1 = true ∧
       mapGet (isAllowed cfg s c now).2.windows c = some [now] ∧
       mapGet (isAllowed cfg s c now).2.banList c = none) := by
  constructor
  · intro hlt
    simp [isAllowed, isBanned, hb, not_le.mpr hlt]
  · intro hge hcap
    have hnotlt : ¬ cfg.maxClients < (mapDelete s.windows c).length :=
      not_lt.mpr (le_of_lt hcap)
    have hnotle : ¬ cfg.maxClients ≤ (mapDelete s.windows c).length :=
      not_le.mpr hcap
    have hnz : ¬ cfg.limit ≤ 0 := by omega
    simp [isAllowed, isBanned, hb, hge, henabled, hnotlt,
      mapGet_mapDelete_self, hnotle, hnz, mapGet_mapSet_self]

/-- C2 witness: a request 1ms before `endTime` is rejected with no
state change; a request at `endTime` is admitted with a fresh window of
exactly one timestamp and no ban record. -/
theorem C2_ban_fairness_witness :
    (isAllowed ⟨60000, 2, 100, true, 10000⟩
        ⟨[], [("c", ⟨0, 10000, "Rate limit exceeded"⟩)]⟩ "c" 9999
      = (false, ⟨[], [("c", ⟨0, 10000, "Rate limit exceeded"⟩)]⟩)) ∧
    (isAllowed ⟨60000, 2, 100, true, 10000⟩
        ⟨[], [("c", ⟨0, 10000, "Rate limit exceeded"⟩)]⟩ "c" 10000).1
      = true := by
  have h := C2_ban_fairness ⟨60000, 2, 100, true, 10000⟩
      ⟨[], [("c", ⟨0, 10000, "Rate limit exceeded"⟩)]⟩ "c" 9999
      ⟨0, 10000, "Rate limit exceeded"⟩ rfl rfl (by decide)
  have h2 := C2_ban_fairness ⟨60000, 2, 100, true, 10000⟩
      ⟨[], [("c", ⟨0, 10000, "Rate limit exceeded"⟩)]⟩ "c" 10000
      ⟨0, 10000, "Rate limit exceeded"⟩ rfl rfl (by decide)
  exact ⟨h.1 (by decide), (h2.2 (by decide) (by decide)).1⟩

/-- C6: a brand-new, unbanned client arriving while the tracked-client
table is exactly at `maxClients` is rejected with the state unchanged —
no ban record and no window are created; once the table is below
`maxClients`, the same client is admitted with a fresh window. -/
theorem C6_max_clients_reject (cfg : RLConfig) (s : RLState)
    (c : String) (now : Int)
    (henabled : cfg.enabled = true)
    (hw : mapGet s.windows c = none)
    (hban : mapGet s.banList c = none) :
    (s.windows.length = cfg.maxClients →
       isAllowed cfg s c now = (false, s)) ∧
    (s.windows.length < cfg.maxClients → 0 < cfg.limit →
       (isAllowed cfg s c now).1 = true ∧
       mapGet (isAllowed cfg s c now).2.windows c = some [now]) := by
  constructor
  · intro hfull
    simp [isAllowed, isBanned, hban, henabled, hfull, hw]
  · intro hcap hlim
    have hnz : ¬ cfg.limit ≤ 0 := by omega
    simp [isAllowed, isBanned, hban, henabled, not_lt.mpr (le_of_lt hcap),
      hw, not_le.mpr hcap, hnz, mapGet_mapSet_self]

/-- C6 witness: with `maxClients = 2` and two tracked clients, a
brand-new third client is rejected and the state is unchanged. -/
theorem C6_max_clients_reject_witness :
    isAllowed ⟨60000, 2, 2, true, 10000⟩ ⟨[("a", [1]), ("b", [2])], []⟩
        "c" 30
      = (false, ⟨[("a", [1]), ("b", [2])], []⟩) := by
  exact (C6_max_clients_reject ⟨60000, 2, 2, true, 10000⟩
    ⟨[("a", [1]), ("b", [2])], []⟩ "c" 30 rfl rfl rfl).1 rfl

/-- C7: `banList` keys stay unique (at most one ban record per client),
and issuing a ban for a client that already has a record is a strict
no-op, so the existing record's `startTime` and `endTime` are
unchanged. -/
theorem C7_single_ban_no_extend (cfg : RLConfig) (s : RLState)
    (c : String) (now : Int) (b : BanInfo)
    (hb : mapGet s.banList c = some b) :
    banClient cfg s c now = s ∧
    mapGet (banClient cfg s c now).banList c = some b ∧
    ((s.banList.map Prod.fst).Nodup →
       (((banClient cfg s c now).banList.map Prod.fst)).Nodup) := by
  refine ⟨?_, ?_, ?_⟩ <;> simp [banClient, hb]

/-- C7 witness: re-banning a banned client leaves its record intact. -/
theorem C7_single_ban_no_extend_witness :
    banClient ⟨60000, 2, 100, true, 10000⟩
        ⟨[], [("c", ⟨0, 10000, "Rate limit exceeded"⟩)]⟩ "c" 5000
      = ⟨[], [("c", ⟨0, 10000, "Rate limit exceeded"⟩)]⟩ :=
  (C7_single_ban_no_extend ⟨60000, 2, 100, true, 10000⟩
    ⟨[], [("c", ⟨0, 10000, "Rate limit exceeded"⟩)]⟩ "c" 5000
    ⟨0, 10000, "Rate limit exceeded"⟩ rfl).1

/-- C8: a reachable limiter state — one admitted request, then
`getStatus` after the window has fully elapsed — makes `getStatus`
compute `reset` from `Math.max` over the empty filtered request list,
producing `-Infinity`, which is not a finite (hence not a well-defined
non-negative) number. -/
theorem C8_reset_not_finite :
    jsMax ([] : List Int) = JSNum.negInf ∧
    (isAllowed ⟨60000, 60, 100, true, 10000⟩ ⟨[], []⟩ "c" 0).1 = true ∧
    (getStatus ⟨60000, 60, 100, true, 10000⟩
        (isAllowed ⟨60000, 60, 100, true, 10000⟩ ⟨[], []⟩ "c" 0).2
        "c" 60001).1
      = some (.activeStatus ⟨false, 0, 60000, 60, 60, .negInf⟩) ∧
    JSNum.isFinite .negInf = false :=
  ⟨rfl, rfl, rfl, rfl⟩

/-- C10: `getStatus` returns `null` for any client with no tracked
window and no active ban; in particular a brand-new client rejected by
the max-clients bound gets a `null` status, and the HTTP rejection path
then reads `.banned` from that `null`, raising a `TypeError`. -/
theorem C10_null_status_banned_read (cfg : RLConfig) (s : RLState)
    (c : String) (now : Int)
    (hw : mapGet s.windows c = none)
    (hb : ∀ b, mapGet s.banList c = some b → b.endTime ≤ now) :
    (getStatus cfg s c now).1 = none ∧
    (cfg.enabled = true → mapGet s.banList c = none →
       s.windows.length = cfg.maxClients →
       isAllowed cfg s c now = (false, s) ∧
       (handleApiRequest cfg s c now).1
         = Except.error nullBannedError) := by
  have h1 : (getStatus cfg s c now).1 = none := by
    cases hbl : mapGet s.banList c with
    | none => simp [getStatus, getBanStatus, hbl, hw]
    | some b =>
        have hend := hb b hbl
        simp [getStatus, getBanStatus, hbl, hend, mapGet_mapDelete_self]
  refine ⟨h1, fun hen hbn hfull => ?_⟩
  have hA : isAllowed cfg s c now = (false, s) := by
    simp [isAllowed, isBanned, hbn, hen, hfull, hw]
  exact ⟨hA, by simp [handleApiRequest, hA, h1]⟩

/-- C10 witness: two tracked clients at `maxClients = 2`; a brand-new
third client is rejected, its status is `null`, and the rejection path
raises the `TypeError`. -/
theorem C10_null_status_banned_read_witness :
    (getStatus ⟨60000, 2, 2, true, 10000⟩ ⟨[("a", [1]), ("b", [2])], []⟩
        "c" 30).1 = none ∧
    (handleApiRequest ⟨60000, 2, 2, true, 10000⟩
        ⟨[("a", [1]), ("b", [2])], []⟩ "c" 30).1
      = Except.error nullBannedError := by
  have h := C10_null_status_banned_read ⟨60000, 2, 2, true, 10000⟩
      ⟨[("a", [1]), ("b", [2])], []⟩ "c" 30 rfl (by simp [mapGet])
  exact ⟨h.1, (h.2 rfl rfl rfl).2⟩

/-- C3: the remote client's nth scheduled reconnection attempt is armed
with delay `retryInterval * 1.5^(n-1)`; once `retryCount ≥ maxRetries`
no further retry is scheduled (the state is untouched), and manual
reconnect cancels the timer and resets `retryCount` to 0. -/
theorem C3_backoff_schedule (cfg : RCConfig) :
    (∀ s : RCState, s.retryCount < cfg.maxRetries →
       handleReconnect cfg s
         = ⟨s.retryCount + 1,
            some (cfg.retryInterval * (3 / 2 : ℚ) ^ s.retryCount)⟩) ∧
    (∀ s : RCState, cfg.maxRetries ≤ s.retryCount →
       handleReconnect cfg s = s) ∧
    (∀ n : ℕ, n ≤ cfg.maxRetries →
       ((handleReconnect cfg)^[n] ⟨0, none⟩).retryCount = n) ∧
    (∀ n : ℕ, 1 ≤ n → n ≤ cfg.maxRetries →
       ((handleReconnect cfg)^[n] ⟨0, none⟩).reconnectTimeout
         = some (cfg.retryInterval * (3 / 2 : ℚ) ^ (n - 1))) ∧
    (∀ s : RCState, manualReconnectReset s = ⟨0, none⟩) := by
  have hstep : ∀ s : RCState, s.retryCount < cfg.maxRetries →
      handleReconnect cfg s
        = ⟨s.retryCount + 1,
           some (cfg.retryInterval * (3 / 2 : ℚ) ^ s.retryCount)⟩ := by
    intro s h
    simp [handleReconnect, not_le.mpr h]
  have hcount : ∀ n : ℕ, n ≤ cfg.maxRetries →
      ((handleReconnect cfg)^[n] ⟨0, none⟩).retryCount = n := by
    intro n
    induction n with
    | zero => intro _; simp
    | succ m ih =>
        intro h
        have hm := ih (Nat.le_of_succ_le h)
        rw [Function.iterate_succ_apply',
          hstep _ (by rw [hm]; omega), hm]
  refine ⟨hstep, ?_, hcount, ?_, fun s => rfl⟩
  · intro s h
    simp [handleReconnect, h]
  · intro n h1 h2
    obtain ⟨m, rfl⟩ : ∃ m, n = m + 1 := ⟨n - 1, by omega⟩
    have hm := hcount m (by omega)
    rw [Function.iterate_succ_apply', hstep _ (by rw [hm]; omega), hm]
    simp

/-- C3 witness: with `maxRetries = 3`, `retryInterval = 1000`, the three
scheduled delays are 1000ms, 1500ms, 2250ms, a fourth failure schedules
nothing, and manual reconnect resets the counter. -/
theorem C3_backoff_schedule_witness :
    ((handleReconnect ⟨3, 1000⟩)^[1] ⟨0, none⟩).reconnectTimeout
        = some 1000 ∧
    ((handleReconnect ⟨3, 1000⟩)^[2] ⟨0, none⟩).reconnectTimeout
        = some 1500 ∧
    ((handleReconnect ⟨3, 1000⟩)^[3] ⟨0, none⟩).reconnectTimeout
        = some 2250 ∧
    handleReconnect ⟨3, 1000⟩ ⟨3, some 2250⟩ = ⟨3, some 2250⟩ ∧
    manualReconnectReset ⟨3, some 2250⟩ = ⟨0, none⟩ := by
  have h := C3_backoff_schedule ⟨3, 1000⟩
  refine ⟨?_, ?_, ?_, h.2.1 ⟨3, some 2250⟩ (by decide),
    h.2.2.2.2 ⟨3, some 2250⟩⟩
  · rw [h.2.2.2.1 1 (by decide) (by decide)]; norm_num
  · rw [h.2.2.2.1 2 (by decide) (by decide)]; norm_num
  · rw [h.2.2.2.1 3 (by decide) (by decide)]; norm_num

/-- C4: a coordinator `get`/`set` hitting a remote failure while the
remote backend is selected runs the failure handling (disconnect mark,
retry scheduled) and then performs the same operation on the local Map
cache, returning the local result rather than an error. -/
theorem C4_remote_failure_fallback {V : Type} (cfg : CMConfig)
    (s : CMState V) (k : String) (v : V) (now : Int)
    (hen : cfg.cacheEnabled = true)
    (hconn : s.isRedisConnected = true)
    (hrec : s.isReconnecting = false)
    (hretry : s.retryCount < cfg.maxRetries)
    (httl : 0 < cfg.ttl) :
    handleRedisError cfg s
      = { s with isRedisConnected := false,
                 retryCount := s.retryCount + 1, retryTimeout := true } ∧
    cmGet cfg s k .err now = mapGetPath (handleRedisError cfg s) k now ∧
    cmSet cfg s k v none false now
      = (mapSetPath (handleRedisError cfg s) k v cfg.ttl now, none) ∧
    mapGet (cmSet cfg s k v none false now).1.mapCache k = some v ∧
    (cmSet cfg s k v none false now).1.isRedisConnected = false ∧
    (cmSet cfg s k v none false now).1.retryTimeout = true := by
  have hE : handleRedisError cfg s
      = { s with isRedisConnected := false,
                 retryCount := s.retryCount + 1, retryTimeout := true } := by
    simp [handleRedisError, scheduleReconnect, hrec, not_le.mpr hretry]
  have hS : cmSet cfg s k v none false now
      = (mapSetPath (handleRedisError cfg s) k v cfg.ttl now, none) := by
    simp [cmSet, hen, hconn, hrec, orElseNum, not_le.mpr httl]
  refine ⟨hE, by simp [cmGet, hen, hconn, hrec], hS, ?_, ?_, ?_⟩ <;>
    simp [hS, mapSetPath, hE, mapGet_mapSet_self]

/-- C4 witness: on a concrete connected state, a failing remote `set`
falls back to the Map cache and schedules a reconnect. -/
theorem C4_remote_failure_fallback_witness :
    mapGet (cmSet ⟨true, 5, 0, 3⟩
        (⟨[], [], [], true, 0, false, false⟩ : CMState Int)
        "k" 7 none false 0).1.mapCache "k" = some 7 ∧
    (cmSet ⟨true, 5, 0, 3⟩
        (⟨[], [], [], true, 0, false, false⟩ : CMState Int)
        "k" 7 none false 0).1.isRedisConnected = false ∧
    (cmSet ⟨true, 5, 0, 3⟩
        (⟨[], [], [], true, 0, false, false⟩ : CMState Int)
        "k" 7 none false 0).1.retryTimeout = true := by
  have h := C4_remote_failure_fallback ⟨true, 5, 0, 3⟩
      (⟨[], [], [], true, 0, false, false⟩ : CMState Int) "k" 7 0
      rfl rfl rfl (by decide) (by decide)
  exact ⟨h.2.2.2.1, h.2.2.2.2.1, h.2.2.2.2.2⟩

/-- C9: `set(k, v, ttl)` with a negative `ttl` is a silent no-op on both
managers (nothing stored in either backend, no error); a `ttl` of
`null`/omitted behaves exactly like `0` and falls back to the configured
default TTL, which (when positive) is what gets stored. -/
theorem C9_negative_ttl_noop {V : Type} (cfg : CMConfig)
    (s : CMState V) (enabled : Bool) (d : Int) (ss : SCMState V)
    (k : String) (v : V) (t : Int) (ro : Bool) (now : Int)
    (hneg : t < 0) :
    cmSet cfg s k v (some t) ro now = (s, none) ∧
    scmSet enabled d ss k v (some t) now = ss ∧
    cmSet cfg s k v none ro now = cmSet cfg s k v (some 0) ro now ∧
    scmSet enabled d ss k v none now
      = scmSet enabled d ss k v (some 0) now ∧
    (0 < d →
       scmSet true d ss k v none now
         = ⟨mapSet ss.mapCache k v,
            mapSet ss.mapCacheTTL k (now + d * 1000)⟩) := by
  refine ⟨?_, ?_, rfl, rfl, fun hd => ?_⟩
  · simp [cmSet, orElseNum, hneg.ne, hneg.le]
  · simp [scmSet, orElseNum, hneg.ne, hneg.le]
  · simp [scmSet, orElseNum, not_le.mpr hd]

/-- C9 witness: `ttl = -1` stores nothing; omitted `ttl` with default 3
stores expiry `now + 3000`. -/
theorem C9_negative_ttl_noop_witness :
    cmSet ⟨true, 3, 0, 3⟩
        (⟨[], [], [], false, 0, false, false⟩ : CMState Int)
        "k" 7 (some (-1)) true 0 = (⟨[], [], [], false, 0, false, false⟩, none) ∧
    scmSet true 3 (⟨[], []⟩ : SCMState Int) "k" 7 (some (-1)) 0
      = ⟨[], []⟩ ∧
    scmSet true 3 (⟨[], []⟩ : SCMState Int) "k" 7 none 0
      = ⟨[("k", 7)], [("k", 3000)]⟩ := by
  have h := C9_negative_ttl_noop ⟨true, 3, 0, 3⟩
      (⟨[], [], [], false, 0, false, false⟩ : CMState Int) true 3
      (⟨[], []⟩ : SCMState Int) "k" 7 (-1) true 0 (by decide)
  refine ⟨h.1, h.2.1, ?_⟩
  rw [h.2.2.2.2 (by decide)]
  decide

end FurImg
